import Mathlib

/-!
Verification development for the mern-auth-user-management repository.

The executable source of the repository is the server bootstrap
`src/server/index.js` (CORS configuration, JSON parsing, environment loading,
listening port).  The auth service, profile service and HTTP middleware are
described by the repository's README and design document but their code is not
present under `src/`; those components are modelled here from that
documentation ("Modelled from the spec"), faithfully to its words, and the
claims about them are settled against the model.  The CORS and port
definitions at the end of the file are translated directly from
`src/server/index.js`.
-/

deriving instance DecidableEq for Except

namespace MernAuth

/-- Process environment: a partial map from variable names to values. -/
abbrev Env := String → Option String

/-- Modelled from the spec (backend/.env and §6): the configuration values
loaded once at process start that the auth components consume. -/
structure Config where
  secret : String
  tokenExpirySecs : Nat
deriving DecidableEq, Repr

/-- Modelled from the spec (Password Hasher, bcrypt): a salted one-way hash,
represented abstractly as the salt together with a digest determined by the
salt and the plaintext. -/
structure Hash where
  salt : Nat
  digest : String
deriving DecidableEq, Repr

/-- Modelled from the spec: the digest bcrypt derives from a salt and a
plaintext secret (abstract injective encoding). -/
def hashDigest (salt : Nat) (password : String) : String :=
  toString salt ++ "$" ++ password

/-- Modelled from the spec: hash a password with a per-record random salt. -/
def hashPassword (salt : Nat) (password : String) : Hash :=
  { salt := salt, digest := hashDigest salt password }

/-- Modelled from the spec: bcrypt verification — re-derive the digest from
the stored salt and compare. -/
def verifyPassword (password : String) (h : Hash) : Bool :=
  h.digest == hashDigest h.salt password

/-- Modelled from the spec (§3 Data model): the sole entity, one record per
registered user. -/
structure User where
  id : Nat
  name : String
  email : String
  passwordHash : Hash
  bio : Option String
  profilePic : Option String
  createdAt : Nat
  updatedAt : Nat
deriving DecidableEq, Repr

/-- Modelled from the spec (Credential Store): the document store state, with
a counter generating fresh identifiers. -/
structure Store where
  users : List User
  nextId : Nat
deriving DecidableEq, Repr

/-- Modelled from the spec: the user payload returned to clients — the User
record excluding the password hash. -/
structure PublicUser where
  id : Nat
  name : String
  email : String
  bio : Option String
  profilePic : Option String
deriving DecidableEq, Repr

/-- Modelled from the spec: project a stored User to its response payload,
dropping the password hash. -/
def publicUser (u : User) : PublicUser :=
  { id := u.id, name := u.name, email := u.email, bio := u.bio,
    profilePic := u.profilePic }

/-- Modelled from the spec (§7 Error taxonomy). -/
inductive AppError where
  | validation (msg : String)
  | unauthorized (msg : String)
  | conflict (msg : String)
  | notFound (msg : String)
  | upstream (msg : String)
deriving DecidableEq, Repr

/-- Modelled from the spec (§7): HTTP status for each error kind. -/
def errorStatus : AppError → Nat
  | .validation _ => 400
  | .unauthorized _ => 401
  | .conflict _ => 409
  | .notFound _ => 404
  | .upstream _ => 502

/-- Message carried by an error. -/
def AppError.msg : AppError → String
  | .validation m => m
  | .unauthorized m => m
  | .conflict m => m
  | .notFound m => m
  | .upstream m => m

/-- True exactly when the result is a ConflictError. -/
def isConflictResult {α : Type} : Except AppError α → Bool
  | .error (.conflict _) => true
  | _ => false

/-- True exactly when the result is a ValidationError. -/
def isValidationResult {α : Type} : Except AppError α → Bool
  | .error (.validation _) => true
  | _ => false

/-- Modelled from the spec (Token Issuer): the claims of a bearer token — the
user identifier as the sole subject claim, plus the expiry instant. -/
structure TokenClaims where
  sub : Nat
  exp : Nat
deriving DecidableEq, Repr

/-- Modelled from the spec (JWT): a signed token: claims plus a signature over
them. -/
structure Token where
  claims : TokenClaims
  sig : String
deriving DecidableEq, Repr

/-- Modelled from the spec: the signature the signing library computes over a
claims payload with the shared secret. -/
def signPayload (secret : String) (c : TokenClaims) : String :=
  secret ++ "." ++ toString c.sub ++ "." ++ toString c.exp

/-- Modelled from the spec: issue a signed token with claims
subject = userId and a fixed expiry window from the current instant. -/
def issueToken (cfg : Config) (now : Nat) (userId : Nat) : Token :=
  let c : TokenClaims := { sub := userId, exp := now + cfg.tokenExpirySecs }
  { claims := c, sig := signPayload cfg.secret c }

/-- Modelled from the spec (Token Verifier): pure verification — check the
signature against the shared secret and that the token has not expired;
return the claims on success. -/
def verifyToken (cfg : Config) (now : Nat) (t : Token) : Option TokenClaims :=
  if t.sig == signPayload cfg.secret t.claims && decide (now < t.claims.exp)
  then some t.claims else none

/-- Modelled from the spec (Credential Store): look a user up by email. -/
def findByEmail (s : Store) (email : String) : Option User :=
  s.users.find? (fun u => u.email == email)

/-- Modelled from the spec (Credential Store): look a user up by identifier. -/
def findById (s : Store) (userId : Nat) : Option User :=
  s.users.find? (fun u => u.id == userId)

/-- Modelled from the spec (§4.1): standard email address syntax — one at-sign
separating a non-empty local part from a non-empty domain containing a dot. -/
def validEmail (email : String) : Bool :=
  match email.toList.splitOn '@' with
  | [lp, dom] => !lp.isEmpty && !dom.isEmpty && dom.contains '.'
  | _ => false

/-- Modelled from the spec (§4.1 signup validation): name non-empty, email in
standard syntax, password at least 8 characters. -/
def validSignup (name email password : String) : Bool :=
  !name.isEmpty && validEmail email && decide (8 ≤ password.length)

/-- Modelled from the spec (§4.1 signup): validate the input, check email
uniqueness, hash the password with a per-record salt, persist the new User,
issue a token, and return the token with the payload sans hash.  `now` is the
clock and `salt` the randomness, passed in explicitly. -/
def signup (cfg : Config) (now salt : Nat) (s : Store)
    (name email password : String) :
    Except AppError (Store × Token × PublicUser) :=
  if !validSignup name email password then
    .error (.validation "invalid signup input")
  else
    match findByEmail s email with
    | some _ => .error (.conflict "email already registered")
    | none =>
      let u : User :=
        { id := s.nextId, name := name, email := email,
          passwordHash := hashPassword salt password,
          bio := none, profilePic := none, createdAt := now, updatedAt := now }
      .ok ({ users := s.users ++ [u], nextId := s.nextId + 1 },
           issueToken cfg now u.id, publicUser u)

/-- Modelled from the spec (§4.1 login): look up by email; fail with
UnauthorizedError carrying the identical "invalid credentials" message whether
the email is unknown or the hash verification fails; on success issue a fresh
token and return it with the payload sans hash. -/
def login (cfg : Config) (now : Nat) (s : Store) (email password : String) :
    Except AppError (Token × PublicUser) :=
  match findByEmail s email with
  | none => .error (.unauthorized "invalid credentials")
  | some u =>
    if verifyPassword password u.passwordHash then
      .ok (issueToken cfg now u.id, publicUser u)
    else
      .error (.unauthorized "invalid credentials")

/-- Modelled from the spec (Credential Store): single-document update of the
record with the given identifier. -/
def updateUser (s : Store) (userId : Nat) (f : User → User) : Store :=
  { users := s.users.map (fun u => if u.id == userId then f u else u),
    nextId := s.nextId }

/-- Modelled from the spec (§4.2 getProfile): return the current User sans
hash; NotFoundError if the identity no longer exists. -/
def getProfile (s : Store) (userId : Nat) : Except AppError PublicUser :=
  match findById s userId with
  | none => .error (.notFound "user not found")
  | some u => .ok (publicUser u)

/-- Modelled from the spec (§4.2 updateProfile): the partial set of updatable
fields; unknown fields are rejected by the shape of this type. -/
structure UpdateFields where
  name : Option String
  email : Option String
  bio : Option String
deriving DecidableEq, Repr

/-- Modelled from the spec (§4.2): whether an email is taken by a record other
than the caller's own. -/
def emailTakenByOther (s : Store) (userId : Nat) (email : String) : Bool :=
  s.users.any (fun u => u.email == email && !(u.id == userId))

/-- Modelled from the spec (§4.2): apply only the supplied fields to a User
record and update the timestamp. -/
def applyFields (now : Nat) (f : UpdateFields) (u : User) : User :=
  { u with
    name := f.name.getD u.name,
    email := f.email.getD u.email,
    bio := match f.bio with | some b => some b | none => u.bio,
    updatedAt := now }

/-- Modelled from the spec (§4.2 updateProfile): re-validate email syntax and
uniqueness (excluding the caller's record) when email is being changed; apply
only supplied fields; update the timestamp; return the updated User sans
hash. -/
def updateProfile (now : Nat) (s : Store) (userId : Nat) (f : UpdateFields) :
    Except AppError (Store × PublicUser) :=
  match findById s userId with
  | none => .error (.notFound "user not found")
  | some u =>
    let commit : Except AppError (Store × PublicUser) :=
      .ok (updateUser s userId (applyFields now f), publicUser (applyFields now f u))
    match f.email with
    | none => commit
    | some e =>
      if !validEmail e then .error (.validation "invalid email")
      else if emailTakenByOther s userId e then
        .error (.conflict "email already registered")
      else commit

/-- Modelled from the spec (Media Uploader): the external hosting call as an
oracle from payload size and MIME type to a durable URL, `none` standing for
failure or timeout. -/
abbrev Uploader := Nat → String → Option String

/-- Modelled from the spec (§4.2): MIME-type allow-list for picture upload. -/
def allowedMimes : List String := ["image/jpeg", "image/png", "image/webp"]

/-- Modelled from the spec (§4.2): the fixed upload size ceiling, 5 MiB. -/
def maxUploadBytes : Nat := 5 * 1024 * 1024

/-- Modelled from the spec (§4.2 uploadPicture): reject disallowed MIME types
and oversized payloads with ValidationError before any network call; delegate
to the Media Uploader; on success persist the returned URL; fail with
UpstreamError when the external call fails, leaving the record unmodified. -/
def uploadPicture (up : Uploader) (now : Nat) (s : Store) (userId : Nat)
    (size : Nat) (mime : String) : Except AppError (Store × PublicUser) :=
  if !(allowedMimes.contains mime) then
    .error (.validation "unsupported media type")
  else if decide (maxUploadBytes < size) then
    .error (.validation "payload too large")
  else
    match findById s userId with
    | none => .error (.notFound "user not found")
    | some u =>
      match up size mime with
      | none => .error (.upstream "image host unavailable")
      | some url =>
        let g : User → User :=
          fun x => { x with profilePic := some url, updatedAt := now }
        .ok (updateUser s userId g, publicUser (g u))

/-- Modelled from the spec (§4.2 deleteAccount): remove the record; a call on
an already-deleted identity fails with NotFoundError. -/
def deleteAccount (s : Store) (userId : Nat) : Except AppError Store :=
  match findById s userId with
  | none => .error (.notFound "user not found")
  | some _ =>
    .ok { users := s.users.filter (fun u => !(u.id == userId)),
          nextId := s.nextId }

/-- Primitive JSON values appearing in response payloads. -/
inductive JPrim where
  | jstr (v : String)
  | jnum (v : Nat)
  | jbool (v : Bool)
  | jnull
deriving DecidableEq, Repr

/-- Top-level JSON values of the uniform response envelope. -/
inductive JVal where
  | prim (p : JPrim)
  | obj (fields : List (String × JPrim))
  | tok (t : Token)
deriving DecidableEq, Repr

/-- An HTTP response: status code and JSON envelope as a field list. -/
structure Response where
  status : Nat
  body : List (String × JVal)
deriving DecidableEq, Repr

/-- Modelled from the spec: serialization of the user payload (README example:
id, name, email, profilePic; §3 adds bio). -/
def userJson (u : PublicUser) : List (String × JPrim) :=
  [("id", .jnum u.id), ("name", .jstr u.name), ("email", .jstr u.email),
   ("bio", match u.bio with | some b => .jstr b | none => .jnull),
   ("profilePic", match u.profilePic with | some p => .jstr p | none => .jnull)]

/-- Modelled from the spec (§4.3): the failure envelope
`\x7bsuccess:false, message\x7d` with the mapped status. -/
def errResponse (e : AppError) : Response :=
  { status := errorStatus e,
    body := [("success", .prim (.jbool false)), ("message", .prim (.jstr e.msg))] }

/-- Modelled from the spec (§6): the `\x7bsuccess, token, user\x7d` envelope of
signup and login. -/
def authResponse (status : Nat) (t : Token) (u : PublicUser) : Response :=
  { status := status,
    body := [("success", .prim (.jbool true)), ("token", .tok t),
             ("user", .obj (userJson u))] }

/-- Modelled from the spec (§6): the `\x7bsuccess, user\x7d` envelope of the
profile routes. -/
def userResponse (u : PublicUser) : Response :=
  { status := 200,
    body := [("success", .prim (.jbool true)), ("user", .obj (userJson u))] }

/-- Modelled from the spec (§6): the bare `\x7bsuccess\x7d` envelope. -/
def successResponse : Response :=
  { status := 200, body := [("success", .prim (.jbool true))] }

/-- Request bodies of the HTTP surface. -/
inductive ReqBody where
  | signupBody (name email password : String)
  | loginBody (email password : String)
  | updateBody (fields : UpdateFields)
  | uploadBody (size : Nat) (mime : String)
  | emptyBody
deriving DecidableEq, Repr

/-- An inbound HTTP request: method, path, optional bearer token, body. -/
structure Request where
  method : String
  path : String
  auth : Option Token
  body : ReqBody
deriving DecidableEq, Repr

/-- The routes of the HTTP surface (§6). -/
inductive Route where
  | signupR
  | loginR
  | logoutR
  | profileGetR
  | profileUpdateR
  | uploadR
  | profileDeleteR
deriving DecidableEq, Repr

/-- Modelled from the spec (§6 route table): method/path dispatch. -/
def parseRoute (method path : String) : Option Route :=
  if method == "POST" && path == "/api/auth/signup" then some .signupR
  else if method == "POST" && path == "/api/auth/login" then some .loginR
  else if method == "POST" && path == "/api/auth/logout" then some .logoutR
  else if method == "GET" && path == "/api/users/profile" then some .profileGetR
  else if method == "PUT" && path == "/api/users/profile" then some .profileUpdateR
  else if method == "POST" && path == "/api/users/upload" then some .uploadR
  else if method == "DELETE" && path == "/api/users/profile" then some .profileDeleteR
  else none

/-- Modelled from the spec (§6): which routes the auth middleware gates;
public routes (signup, login) skip the pipeline entirely. -/
def isProtectedRoute : Route → Bool
  | .signupR => false
  | .loginR => false
  | _ => true

/-- Modelled from the spec (§4.3 auth middleware): no token → 401; invalid or
expired token → 401; valid token → decode the subject claim as the resolved
identity. -/
def requireAuth (cfg : Config) (now : Nat) (tok : Option Token) :
    Except AppError Nat :=
  match tok with
  | none => .error (.unauthorized "no token provided")
  | some t =>
    match verifyToken cfg now t with
    | none => .error (.unauthorized "invalid or expired token")
    | some c => .ok c.sub

/-- Modelled from the spec (§4.3, §6): the per-route handler, after routing.
Protected routes run the middleware first and are reached only with a resolved
identity; the store is threaded explicitly, errors leave it unchanged. -/
def handleRoute (cfg : Config) (up : Uploader) (now salt : Nat) (s : Store)
    (r : Route) (auth : Option Token) (b : ReqBody) : Store × Response :=
  match r with
  | .signupR =>
    match b with
    | .signupBody n e p =>
      match signup cfg now salt s n e p with
      | .ok (s', t, u) => (s', authResponse 201 t u)
      | .error err => (s, errResponse err)
    | _ => (s, errResponse (.validation "malformed body"))
  | .loginR =>
    match b with
    | .loginBody e p =>
      match login cfg now s e p with
      | .ok (t, u) => (s, authResponse 200 t u)
      | .error err => (s, errResponse err)
    | _ => (s, errResponse (.validation "malformed body"))
  | .logoutR =>
    match requireAuth cfg now auth with
    | .error err => (s, errResponse err)
    | .ok _ => (s, successResponse)
  | .profileGetR =>
    match requireAuth cfg now auth with
    | .error err => (s, errResponse err)
    | .ok uid =>
      match getProfile s uid with
      | .ok u => (s, userResponse u)
      | .error err => (s, errResponse err)
  | .profileUpdateR =>
    match requireAuth cfg now auth with
    | .error err => (s, errResponse err)
    | .ok uid =>
      match b with
      | .updateBody f =>
        match updateProfile now s uid f with
        | .ok (s', u) => (s', userResponse u)
        | .error err => (s, errResponse err)
      | _ => (s, errResponse (.validation "malformed body"))
  | .uploadR =>
    match requireAuth cfg now auth with
    | .error err => (s, errResponse err)
    | .ok uid =>
      match b with
      | .uploadBody size mime =>
        match uploadPicture up now s uid size mime with
        | .ok (s', u) => (s', userResponse u)
        | .error err => (s, errResponse err)
      | _ => (s, errResponse (.validation "malformed body"))
  | .profileDeleteR =>
    match requireAuth cfg now auth with
    | .error err => (s, errResponse err)
    | .ok uid =>
      match deleteAccount s uid with
      | .ok s' => (s', successResponse)
      | .error err => (s, errResponse err)

/-- Modelled from the spec (§4.3, §6): the HTTP boundary — route the method
and path, then run the handler; unknown routes get 404. -/
def handleRequest (cfg : Config) (up : Uploader) (now salt : Nat) (s : Store)
    (req : Request) : Store × Response :=
  match parseRoute req.method req.path with
  | none =>
    (s, { status := 404,
          body := [("success", .prim (.jbool false)),
                   ("message", .prim (.jstr "not found"))] })
  | some r => handleRoute cfg up now salt s r req.auth req.body

/-- From `src/server/index.js` lines 9-12: the CORS allowed-origin list passed
to the cors middleware — a hard-coded constant. -/
def corsOrigins : List String := ["http://localhost:5173", "http://localhost:5174"]

/-- From `src/server/index.js`: the server's CORS allowed-origin policy as a
function of the process environment.  The code does not consult the
environment when configuring cors. -/
def corsPolicy (env : Env) : List String := corsOrigins

/-- Modelled from the spec (§6, README env table): the configured
allowed-browser-origins value, loaded from the environment at process start —
the README names CLIENT_URL as the frontend URL for CORS.  Used only to state
the refinement the spec asserts. -/
def configuredOrigins (env : Env) : List String :=
  match env "CLIENT_URL" with
  | some url => [url]
  | none => []

/-- From `src/server/index.js` line 18:
`const PORT = process.env.PORT || 3000` — a set, non-empty PORT value is
truthy and is used; an unset or empty PORT falls back to 3000. -/
def serverPort (env : Env) : String :=
  match env "PORT" with
  | some v => if v == "" then "3000" else v
  | none => "3000"

/-- Demo configuration used by concrete witnesses: a shared secret and a
7-day expiry, as in the README's .env example. -/
def cfgDemo : Config := { secret := "s3cret", tokenExpirySecs := 604800 }

/-- Demo user record matching the README's signup example. -/
def johnUser : User :=
  { id := 1, name := "John Doe", email := "john@example.com",
    passwordHash := hashPassword 7 "securePassword123",
    bio := none, profilePic := none, createdAt := 0, updatedAt := 0 }

/-- Demo store with no users yet. -/
def storeEmpty : Store := { users := [], nextId := 1 }

/-- Demo store holding exactly the demo user. -/
def storeJohn : Store := { users := [johnUser], nextId := 2 }

/-- Demo uploader that always fails (external host unavailable). -/
def upNone : Uploader := fun _ _ => none

/-- Demo token whose signature was not produced with the demo secret. -/
def badToken : Token := { claims := { sub := 1, exp := 604800 }, sig := "tampered" }

/-- Demo environment carrying a CLIENT_URL value. -/
def envClientUrl : Env :=
  fun k => if k == "CLIENT_URL" then some "https://app.example.com" else none

/-- Demo environment with PORT set to a non-empty value. -/
def envPort : Env := fun k => if k == "PORT" then some "8080" else none

/-- Demo environment with no variables set. -/
def envUnset : Env := fun _ => none

/-- Demo profile update supplying only the name. -/
def fieldsDemo : UpdateFields := { name := some "Johnny", email := none, bio := none }

theorem userJson_keys (u : PublicUser) :
    (userJson u).map Prod.fst = ["id", "name", "email", "bio", "profilePic"] :=
  rfl

/-- C3 counterexample: a store already holds john@example.com, yet signup with
that email and the one-character password "x" fails with ValidationError, not
ConflictError — input validation runs before the uniqueness check (§4.1). -/
theorem signup_existing_email_validation_first :
    (findByEmail storeJohn "john@example.com").isSome = true ∧
    isConflictResult (signup cfgDemo 0 0 storeJohn "Jane" "john@example.com" "x") = false ∧
    signup cfgDemo 0 0 storeJohn "Jane" "john@example.com" "x"
      = .error (.validation "invalid signup input") := by
  refine ⟨by decide, by decide, by decide⟩

/-- C3 (amended): for every store holding a user with email e and every
name and password that pass signup's input validation, signup with e fails
with ConflictError — in particular for the existing account's own correct
password. -/
theorem signup_existing_email_conflict (cfg : Config) (now salt : Nat)
    (s : Store) (n e p : String) (hval : validSignup n e p = true)
    (hex : (findByEmail s e).isSome = true) :
    signup cfg now salt s n e p = .error (.conflict "email already registered") := by
  cases hfe : findByEmail s e with
  | none => rw [hfe] at hex; simp at hex
  | some u => simp [signup, hval, hfe]

/-- Witness for C3's amended theorem: signup with the demo user's email and
the demo user's own (valid) password yields the conflict error. -/
theorem signup_existing_email_conflict_witness :
    signup cfgDemo 0 0 storeJohn "Jane" "john@example.com" "securePassword123"
      = .error (.conflict "email already registered") :=
  signup_existing_email_conflict cfgDemo 0 0 storeJohn
    "Jane" "john@example.com" "securePassword123" (by decide) (by decide)

/-- C4: a login on an unregistered email and a login on a registered email
with a non-matching password produce the same UnauthorizedError with the same
message. -/
theorem login_failure_uniform_error (cfg : Config) (now1 now2 : Nat)
    (s : Store) (e1 p1 e2 p2 : String) (u : User)
    (h1 : findByEmail s e1 = none)
    (h2 : findByEmail s e2 = some u)
    (h3 : verifyPassword p2 u.passwordHash = false) :
    login cfg now1 s e1 p1 = .error (.unauthorized "invalid credentials") ∧
    login cfg now2 s e2 p2 = .error (.unauthorized "invalid credentials") := by
  constructor
  · simp [login, h1]
  · simp [login, h2, h3]

/-- Witness for C4 at a concrete store: unknown email and wrong password for
the demo user give the identical error. -/
theorem login_failure_uniform_error_witness :
    login cfgDemo 0 storeJohn "jane@example.com" "whatever1"
      = .error (.unauthorized "invalid credentials") ∧
    login cfgDemo 0 storeJohn "john@example.com" "wrongPassword"
      = .error (.unauthorized "invalid credentials") :=
  login_failure_uniform_error cfgDemo 0 0 storeJohn
    "jane@example.com" "whatever1" "john@example.com" "wrongPassword" johnUser
    (by decide) (by decide) (by decide)

/-- C9 counterexample: with CLIENT_URL configured, the server's CORS policy
(src/server/index.js) is not the configured origin list — the code hard-codes
the localhost origins and never consults the environment. -/
theorem cors_policy_ignores_env :
    corsPolicy envClientUrl ≠ configuredOrigins envClientUrl := by
  decide

/-- C9 (amended): the CORS allowed-origin list is the constant
localhost:5173/5174 pair for every process environment; it is fixed in the
program, not environment-configured. -/
theorem cors_policy_constant (env : Env) :
    corsPolicy env = ["http://localhost:5173", "http://localhost:5174"] :=
  rfl

/-- C10: the server listens on the PORT environment value when it is set and
non-empty, and on 3000 otherwise (src/server/index.js line 18). -/
theorem serverPort_env_or_default (env : Env) :
    (∀ v, env "PORT" = some v → v ≠ "" → serverPort env = v) ∧
    ((env "PORT" = none ∨ env "PORT" = some "") → serverPort env = "3000") := by
  constructor
  · intro v hv hne
    simp [serverPort, hv]
    intro h
    exact absurd h hne
  · intro h
    cases h with
    | inl h => simp [serverPort, h]
    | inr h => simp [serverPort, h]

/-- Witness for C10: PORT=8080 is used; an unset PORT falls back to 3000. -/
theorem serverPort_env_or_default_witness :
    serverPort envPort = "8080" ∧ serverPort envUnset = "3000" :=
  ⟨(serverPort_env_or_default envPort).1 "8080" (by decide) (by decide),
   (serverPort_env_or_default envUnset).2 (Or.inl rfl)⟩

/-- C1: the POST /api/auth/signup route is served without any token (the auth
field is arbitrary, none included), and a valid signup with a fresh email
responds 201 with the envelope keys success, token, user and success true. -/
theorem signup_route_unauthenticated_201 (cfg : Config) (up : Uploader)
    (now salt : Nat) (s : Store) (a : Option Token) (n e p : String)
    (hval : validSignup n e p = true) (hfresh : findByEmail s e = none) :
    (handleRequest cfg up now salt s
      { method := "POST", path := "/api/auth/signup", auth := a,
        body := .signupBody n e p }).2.status = 201 ∧
    (handleRequest cfg up now salt s
      { method := "POST", path := "/api/auth/signup", auth := a,
        body := .signupBody n e p }).2.body.map Prod.fst
      = ["success", "token", "user"] ∧
    (handleRequest cfg up now salt s
      { method := "POST", path := "/api/auth/signup", auth := a,
        body := .signupBody n e p }).2.body.lookup "success"
      = some (.prim (.jbool true)) := by
  have hr : handleRequest cfg up now salt s
      { method := "POST", path := "/api/auth/signup", auth := a,
        body := .signupBody n e p }
      = handleRoute cfg up now salt s .signupR a (.signupBody n e p) := rfl
  rw [hr]
  simp [handleRoute, signup, hval, hfresh, authResponse, userJson, List.lookup]

/-- Witness for C1: the README's example signup against the empty store
responds 201. -/
theorem signup_route_unauthenticated_201_witness :
    (handleRequest cfgDemo upNone 0 7 storeEmpty
      { method := "POST", path := "/api/auth/signup", auth := none,
        body := .signupBody "John Doe" "john@example.com" "securePassword123" }).2.status
      = 201 :=
  (signup_route_unauthenticated_201 cfgDemo upNone 0 7 storeEmpty none
    "John Doe" "john@example.com" "securePassword123" (by decide) (by decide)).1

/-- C5: the token issued at signup verifies within its expiry window, its sole
subject claim is the created user's identifier, and the auth middleware
resolves it to that same identity. -/
theorem signup_token_roundtrip (cfg : Config) (now now2 salt : Nat)
    (s s' : Store) (t : Token) (u : PublicUser) (n e p : String)
    (h : signup cfg now salt s n e p = .ok (s', t, u))
    (hwin : now2 < t.claims.exp) :
    verifyToken cfg now2 t = some t.claims ∧ t.claims.sub = u.id ∧
    requireAuth cfg now2 (some t) = .ok u.id := by
  unfold signup at h
  split at h
  · exact absurd h (by simp)
  · split at h
    · exact absurd h (by simp)
    · simp only [Except.ok.injEq, Prod.mk.injEq] at h
      obtain ⟨hs, ht, hu⟩ := h
      subst ht hu
      refine ⟨?_, rfl, ?_⟩
      · simp [verifyToken, issueToken] at hwin ⊢
        exact hwin
      · simp [requireAuth, verifyToken, issueToken] at hwin ⊢
        rw [if_pos hwin]
        rfl

/-- Witness for C5: the demo signup's token, presented 100 seconds later,
resolves to the created user's identifier. -/
theorem signup_token_roundtrip_witness :
    requireAuth cfgDemo 100 (some (issueToken cfgDemo 0 1))
      = .ok (publicUser johnUser).id :=
  (signup_token_roundtrip cfgDemo 0 100 7 storeEmpty storeJohn
    (issueToken cfgDemo 0 1) (publicUser johnUser)
    "John Doe" "john@example.com" "securePassword123"
    (by decide) (by decide)).2.2

/-- C6: on every protected route, a request whose token does not verify
(expired, or signature mismatch) is answered 401 by the middleware with the
store unchanged — the route handler is never reached. -/
theorem protected_route_rejects_invalid_token (cfg : Config) (up : Uploader)
    (now salt : Nat) (s : Store) (m pth : String) (t : Token) (b : ReqBody)
    (r : Route) (hroute : parseRoute m pth = some r)
    (hprot : isProtectedRoute r = true)
    (hbad : verifyToken cfg now t = none) :
    handleRequest cfg up now salt s
      { method := m, path := pth, auth := some t, body := b }
      = (s, errResponse (.unauthorized "invalid or expired token")) := by
  have hr : handleRequest cfg up now salt s
      { method := m, path := pth, auth := some t, body := b }
      = (match parseRoute m pth with
         | none =>
           (s, { status := 404,
                 body := [("success", .prim (.jbool false)),
                          ("message", .prim (.jstr "not found"))] })
         | some r => handleRoute cfg up now salt s r (some t) b) := rfl
  rw [hr, hroute]
  cases r with
  | signupR => simp [isProtectedRoute] at hprot
  | loginR => simp [isProtectedRoute] at hprot
  | logoutR => simp [handleRoute, requireAuth, hbad]
  | profileGetR => simp [handleRoute, requireAuth, hbad]
  | profileUpdateR => simp [handleRoute, requireAuth, hbad]
  | uploadR => simp [handleRoute, requireAuth, hbad]
  | profileDeleteR => simp [handleRoute, requireAuth, hbad]

/-- Witness for C6: a tampered token on GET /api/users/profile yields 401 and
leaves the store as it was. -/
theorem protected_route_rejects_invalid_token_witness :
    handleRequest cfgDemo upNone 0 0 storeJohn
      { method := "GET", path := "/api/users/profile", auth := some badToken,
        body := .emptyBody }
      = (storeJohn, errResponse (.unauthorized "invalid or expired token")) :=
  protected_route_rejects_invalid_token cfgDemo upNone 0 0 storeJohn
    "GET" "/api/users/profile" badToken .emptyBody .profileGetR
    (by decide) (by decide) (by decide)

/-- C2: a successful signup returns a user payload whose serialization has no
password (or password-hash) key, and logging in afterwards with the same email
and password succeeds, returning a token and the same user. -/
theorem signup_no_password_and_login_roundtrip (cfg : Config)
    (now now2 salt : Nat) (s s' : Store) (t : Token) (u : PublicUser)
    (n e p : String)
    (h : signup cfg now salt s n e p = .ok (s', t, u)) :
    ("password" ∉ (userJson u).map Prod.fst ∧
     "passwordHash" ∉ (userJson u).map Prod.fst) ∧
    login cfg now2 s' e p = .ok (issueToken cfg now2 u.id, u) := by
  constructor
  · rw [userJson_keys]
    exact ⟨by decide, by decide⟩
  · unfold signup at h
    split at h
    · exact absurd h (by simp)
    · split at h
      · exact absurd h (by simp)
      · next hfresh =>
        simp only [Except.ok.injEq, Prod.mk.injEq] at h
        obtain ⟨hs, ht, hu⟩ := h
        subst hs hu
        unfold login findByEmail
        rw [List.find?_append]
        have h1 : s.users.find? (fun x => x.email == e) = none := hfresh
        rw [h1]
        simp [verifyPassword, hashPassword, issueToken, publicUser]

/-- Witness for C2: after the demo signup, login with the same credentials
succeeds and returns the same user. -/
theorem signup_no_password_and_login_roundtrip_witness :
    login cfgDemo 99 storeJohn "john@example.com" "securePassword123"
      = .ok (issueToken cfgDemo 99 (publicUser johnUser).id, publicUser johnUser) :=
  (signup_no_password_and_login_roundtrip cfgDemo 0 99 7 storeEmpty storeJohn
    (issueToken cfgDemo 0 1) (publicUser johnUser)
    "John Doe" "john@example.com" "securePassword123" (by decide)).2

/-- C7: uploadPicture rejects a disallowed MIME type or an over-5-MiB payload
with ValidationError, with a result independent of the Media Uploader (it is
never called); and when the external call fails, the upload route answers
UpstreamError with the store — hence the User record — unchanged. -/
theorem upload_validation_before_upstream :
    (∀ (up up' : Uploader) (now : Nat) (s : Store) (uid size : Nat) (mime : String),
      (allowedMimes.contains mime = false ∨ maxUploadBytes < size) →
      uploadPicture up now s uid size mime = uploadPicture up' now s uid size mime ∧
      isValidationResult (uploadPicture up now s uid size mime) = true) ∧
    (∀ (cfg : Config) (up : Uploader) (now salt : Nat) (s : Store) (t : Token)
      (c : TokenClaims) (size : Nat) (mime : String),
      verifyToken cfg now t = some c →
      allowedMimes.contains mime = true →
      size ≤ maxUploadBytes →
      (findById s c.sub).isSome = true →
      up size mime = none →
      handleRequest cfg up now salt s
        { method := "POST", path := "/api/users/upload", auth := some t,
          body := .uploadBody size mime }
        = (s, errResponse (.upstream "image host unavailable"))) := by
  constructor
  · intro up up' now s uid size mime hbad
    unfold uploadPicture
    cases hm : allowedMimes.contains mime with
    | false => simp [isValidationResult]
    | true =>
      rcases hbad with hb | hb
      · rw [hm] at hb; simp at hb
      · simp [isValidationResult, hb]
  · intro cfg up now salt s t c size mime hver hm hsz hfind hup
    have hr : handleRequest cfg up now salt s
        { method := "POST", path := "/api/users/upload", auth := some t,
          body := .uploadBody size mime }
        = handleRoute cfg up now salt s .uploadR (some t) (.uploadBody size mime) := rfl
    rw [hr]
    cases hfi : findById s c.sub with
    | none => rw [hfi] at hfind; simp at hfind
    | some u =>
      have hu : uploadPicture up now s c.sub size mime
          = .error (.upstream "image host unavailable") := by
        unfold uploadPicture
        rw [hm, hfi, hup]
        simp [Nat.not_lt.mpr hsz]
      simp [handleRoute, requireAuth, hver, hu]

/-- Witness for C7: a text/plain upload is rejected as a validation error, and
an upload against a dead image host leaves the demo store untouched with the
upstream error. -/
theorem upload_validation_before_upstream_witness :
    isValidationResult (uploadPicture upNone 0 storeJohn 1 10 "text/plain") = true ∧
    handleRequest cfgDemo upNone 0 0 storeJohn
      { method := "POST", path := "/api/users/upload",
        auth := some (issueToken cfgDemo 0 1), body := .uploadBody 10 "image/png" }
      = (storeJohn, errResponse (.upstream "image host unavailable")) :=
  ⟨(upload_validation_before_upstream.1 upNone upNone 0 storeJohn 1 10
      "text/plain" (Or.inl (by decide))).2,
   upload_validation_before_upstream.2 cfgDemo upNone 0 0 storeJohn
     (issueToken cfgDemo 0 1) (issueToken cfgDemo 0 1).claims 10 "image/png"
     (by decide) (by decide) (by decide) (by decide) rfl⟩

/-- C8: a successful updateProfile rewrites only the caller's record, and the
rewriting applies exactly the supplied fields plus the updated timestamp —
identifier, password hash, profile picture URL, creation timestamp, and every
unsupplied field are unchanged. -/
theorem updateProfile_frame (now : Nat) (s : Store) (uid : Nat)
    (f : UpdateFields) (s' : Store) (pu : PublicUser)
    (h : updateProfile now s uid f = .ok (s', pu)) :
    s'.users = s.users.map
      (fun x => if x.id == uid then applyFields now f x else x) ∧
    ∀ x : User,
      (applyFields now f x).id = x.id ∧
      (applyFields now f x).passwordHash = x.passwordHash ∧
      (applyFields now f x).profilePic = x.profilePic ∧
      (applyFields now f x).createdAt = x.createdAt ∧
      (applyFields now f x).updatedAt = now ∧
      (f.name = none → (applyFields now f x).name = x.name) ∧
      (f.email = none → (applyFields now f x).email = x.email) ∧
      (f.bio = none → (applyFields now f x).bio = x.bio) := by
  constructor
  · simp only [updateProfile] at h
    split at h
    · exact absurd h (by simp)
    · split at h
      · simp only [Except.ok.injEq, Prod.mk.injEq] at h
        obtain ⟨hs, hpu⟩ := h
        subst hs
        rfl
      · split at h
        · exact absurd h (by simp)
        · split at h
          · exact absurd h (by simp)
          · simp only [Except.ok.injEq, Prod.mk.injEq] at h
            obtain ⟨hs, hpu⟩ := h
            subst hs
            rfl
  · intro x
    refine ⟨rfl, rfl, rfl, rfl, rfl, ?_, ?_, ?_⟩
    · intro hn; simp [applyFields, hn]
    · intro he; simp [applyFields, he]
    · intro hb; simp [applyFields, hb]

/-- Witness for C8: a name-only update of the demo user keeps the password
hash and the profile picture. -/
theorem updateProfile_frame_witness :
    (applyFields 5 fieldsDemo johnUser).passwordHash = johnUser.passwordHash ∧
    (applyFields 5 fieldsDemo johnUser).profilePic = johnUser.profilePic := by
  have h := updateProfile_frame 5 storeJohn 1 fieldsDemo
    (updateUser storeJohn 1 (applyFields 5 fieldsDemo))
    (publicUser (applyFields 5 fieldsDemo johnUser)) (by decide)
  exact ⟨(h.2 johnUser).2.1, (h.2 johnUser).2.2.1⟩

end MernAuth
